import Mathlib

/-!
Verification of the natural-language specification of
`src/js/scripts.js` (a client-side portfolio page script) against a
shallow embedding of that script in Lean.

Modelling conventions:
* JS strings manipulated character-by-character (the typing effect) are
  modelled as `List Char`; `String.prototype.substring(0, n)` is
  `List.take n` (both clamp `n` to `[0, length]`).
* `element.classList` is a list of class-name tokens; `classList.add`
  inserts only when absent, `classList.remove` filters the token out,
  `classList.toggle (c, b)` sets presence of `c` to `b`.
* Timer-driven loops (the `TypeWriter.type` loop, the `setInterval`
  callback of `countUp`) are modelled as step functions on explicit
  state records; the browser firing a timer is function application,
  and the millisecond delay handed to `setTimeout` is returned as data.
* JS exceptions (`TypeError` on a null dereference, `SyntaxError` from
  `JSON.parse`) are modelled with `Except`.
* `Math.round` on a non-negative quantity is `⌊q + 1/2⌋` on `ℚ`
  (JavaScript rounds half-way cases toward +∞); `window.scrollY` is a
  non-negative finite number, modelled as `ℚ`.
-/

/-- JS strings of the typing effect, modelled as lists of characters. -/
abbrev JStr := List Char

/-! ### Section 1 of the script: navbar scroll effect

`scripts.js` lines 36-42: `addNavScrollClass` adds the class
`"scrolled"` to `navbar.classList` when `window.scrollY > 50` and
removes it otherwise.  The function is invoked once at load (line 46)
and on every scroll event (line 51). -/

/-- Model of `classList.add c`: appends the token unless it is already present
(a `DOMTokenList` never holds duplicates). -/
def classListAdd (cs : List String) (c : String) : List String :=
  if c ∈ cs then cs else cs ++ [c]

/-- Model of `classList.remove c`: removes every occurrence of the token. -/
def classListRemove (cs : List String) (c : String) : List String :=
  cs.filter (fun s => s != c)

/-- The body of `addNavScrollClass` (lines 37-41), as a function from
the current scroll offset and the navbar's class list to the navbar's
new class list. -/
def addNavScrollClass (scrollY : ℚ) (cs : List String) : List String :=
  if scrollY > 50 then classListAdd cs "scrolled"
  else classListRemove cs "scrolled"

/-! ### Section 4 of the script: the `TypeWriter` state machine

Lines 157-199.  The mutable fields of a `TypeWriter` instance, plus the
constructor arguments `words` and `waitTime`.  The DOM write
`this.element.textContent = this.text` is represented by the `text`
field itself. -/

structure TWState where
  words : List JStr
  waitTime : Nat
  wordIndex : Nat
  text : JStr
  isDeleting : Bool
  deriving DecidableEq

/-- The body of `TypeWriter.type` (lines 168-198) after the current
word has been read successfully: computes the new state together with
the millisecond delay passed to `setTimeout` for the next step. -/
def typeStepAux (s : TWState) (currentWord : JStr) : TWState × Nat :=
  let text := if s.isDeleting then currentWord.take (s.text.length - 1)
    else currentWord.take (s.text.length + 1)
  if s.isDeleting = false ∧ text = currentWord then
    ({ s with text := text, isDeleting := true }, s.waitTime)
  else if s.isDeleting = true ∧ text = [] then
    ({ s with text := text, isDeleting := false, wordIndex := s.wordIndex + 1 }, 400)
  else
    ({ s with text := text }, if s.isDeleting then 50 else 100)

/-- One call of `TypeWriter.type` (lines 168-198).  Line 170 reads
`this.words[this.wordIndex % this.words.length]`; when `words` is empty
this yields `undefined` (in Lean: the out-of-bounds lookup is `none`)
and the `substring` call on it throws, modelled as result `none`. -/
def typeStep (s : TWState) : Option (TWState × Nat) :=
  match s.words[s.wordIndex % s.words.length]? with
  | none => none
  | some currentWord => some (typeStepAux s currentWord)

/-- The state built by `new TypeWriter(typedTarget, words, 2000)`
(constructor, lines 158-166; instantiated at line 206). -/
def typeWriterInit (words : List JStr) : TWState :=
  { words := words, waitTime := 2000, wordIndex := 0,
    text := [], isDeleting := false }

/-! ### Section 5 of the script: the stats count-up

Lines 223-243.  `countUp` parses a target, then runs a `setInterval`
callback every `2000 / 60` ms.  Each tick increments `currentStep`,
writes `Math.min(Math.round((target / steps) * currentStep), target)`
to the element, and on the 60th tick overwrites the text with the exact
target and clears the interval. -/

/-- Model of `Math.round` (round half toward positive infinity). -/
def jsRound (q : ℚ) : ℤ := ⌊q + 1/2⌋

/-- The value written on tick `k` (line 234):
`Math.min(Math.round((target / 60) * k), target)`. -/
def countUpValue (target k : ℕ) : ℤ :=
  min (jsRound ((target : ℚ) / 60 * k)) (target : ℤ)

/-- The observable state of one running `countUp` animation: the
`currentStep` counter, the text currently displayed in the element, and
whether the interval has been cleared. -/
structure CountState where
  currentStep : ℕ
  display : ℤ
  cleared : Bool
  deriving DecidableEq

/-- One firing of the `setInterval` callback (lines 231-242).  A
cleared interval never fires again, so a tick on a cleared state is the
identity.  On the tick reaching step 60 the callback writes the rounded
value and then immediately overwrites it with the exact target
(line 239), so the net displayed value of that tick is `target`. -/
def countUpTick (target : ℕ) (s : CountState) : CountState :=
  if s.cleared then s
  else
    let k := s.currentStep + 1
    if 60 ≤ k then { currentStep := k, display := (target : ℤ), cleared := true }
    else { currentStep := k, display := countUpValue target k, cleared := false }

/-- State at the start of `countUp` (line 229: `currentStep = 0`; the
element's text is the initial `0` of the markup). -/
def countUpInit : CountState :=
  { currentStep := 0, display := 0, cleared := false }

/-- The state after the interval has fired `n` times. -/
def countUpRun (target n : ℕ) : CountState :=
  (countUpTick target)^[n] countUpInit

/-! ### Section 3 of the script: scroll reveal

Lines 129-140.  The observer's callback adds `"revealed"` to the class
list of every intersecting entry's target and unobserves that target.
Elements are identified by numeric ids; the per-element state relevant
to the claims is membership in the `revealed` set (holding the class)
and in the `observed` set (still watched by `revealObserver`).  The
`threshold: 0.1` / `rootMargin: '0px 0px -40px 0px'` options only
control when the browser fires an entry with `isIntersecting = true`;
they are abstracted into the boolean of each delivered entry. -/

structure RevealState where
  revealed : List ℕ
  observed : List ℕ
  deriving DecidableEq

/-- Processing of a single `IntersectionObserverEntry` by the callback
(lines 130-134): non-intersecting entries are skipped; an intersecting
entry's target gains the `revealed` class and is unobserved. -/
def revealEntryStep (st : RevealState) (e : ℕ × Bool) : RevealState :=
  if e.2 = false then st
  else
    { revealed := if e.1 ∈ st.revealed then st.revealed else st.revealed ++ [e.1],
      observed := st.observed.filter (fun y => y != e.1) }

/-- One invocation of the `revealObserver` callback on a batch of
entries (`entries.forEach`, line 130). -/
def revealCallback (st : RevealState) (entries : List (ℕ × Bool)) : RevealState :=
  entries.foldl revealEntryStep st

/-- The events that can reach the page after load: scroll events (which
no reveal-related handler listens to) and intersection-observer
callback invocations. -/
inductive RevealEvent where
  | scrollEvent : RevealEvent
  | intersection : List (ℕ × Bool) → RevealEvent
  deriving DecidableEq

/-- Effect of one event on the reveal state. -/
def revealStep (st : RevealState) : RevealEvent → RevealState
  | RevealEvent.scrollEvent => st
  | RevealEvent.intersection entries => revealCallback st entries

/-- Effect of a sequence of events. -/
def revealRun (st : RevealState) (evs : List RevealEvent) : RevealState :=
  evs.foldl revealStep st

/-- Number of events in `evs` whose processing flips element `x` from
unrevealed to revealed. -/
def transitionCount (x : ℕ) (st : RevealState) : List RevealEvent → ℕ
  | [] => 0
  | e :: evs =>
    (if x ∉ st.revealed ∧ x ∈ (revealStep st e).revealed then 1 else 0) +
      transitionCount x (revealStep st e) evs

/-! ### Section 7 of the script: project filter

Lines 287-303.  Clicking a filter button removes `active` from every
button, adds it to the clicked one, and toggles `hidden` on every card
according to `selectedFilter === 'all' || cardCategory === selectedFilter`. -/

structure FilterBtn where
  filter : String
  active : Bool
  deriving DecidableEq

structure ProjectCard where
  category : String
  hidden : Bool
  deriving DecidableEq

/-- The filter buttons and the project cards (every card in the
`projectCards` NodeList carries a `data-category`, since the selector
is `.project-card[data-category]`). -/
structure FilterUI where
  buttons : List FilterBtn
  cards : List ProjectCard
  deriving DecidableEq

/-- The click handler of filter button `i` (lines 288-302): pass one
removes `active` everywhere and re-adds it on the clicked button; pass
two sets each card's `hidden` class to `!(selectedFilter === 'all' ||
cardCategory === selectedFilter)`. -/
def clickFilter (ui : FilterUI) (i : Fin ui.buttons.length) : FilterUI :=
  let cleared := ui.buttons.map (fun b => { b with active := false })
  let selectedFilter := (ui.buttons.get i).filter
  { buttons := cleared.set i { ui.buttons.get i with active := true },
    cards := ui.cards.map (fun c =>
      { c with hidden := !(selectedFilter == "all" || c.category == selectedFilter) }) }

/-! ### Section 8 of the script: contact form

Lines 310-331. -/

structure SubmitBtn where
  innerHTML : String
  background : String
  disabled : Bool
  deriving DecidableEq

/-- The contact form: its submit button (the
`querySelector('button[type="submit"]')` result, possibly null) and the
current contents of its input fields. -/
structure ContactForm where
  submitBtn : Option SubmitBtn
  fields : List String
  deriving DecidableEq

/-- Everything the submit handler does: whether `preventDefault` ran,
the form state right after the handler returns, the delay given to
`setTimeout`, and the form state after that timeout fires. -/
structure SubmitOutcome where
  defaultPrevented : Bool
  immediate : ContactForm
  delay : ℕ
  final : ContactForm
  deriving DecidableEq

/-- JS exceptions that can escape the script. -/
inductive JsErr where
  | typeError : JsErr
  | syntaxError : JsErr
  deriving DecidableEq

/-- The submit handler (lines 311-330).  `event.preventDefault()` runs
first; `submitBtn.innerHTML` then throws if the button is absent.
Otherwise the button is swapped to the success label/color and
disabled, and the 2500 ms timeout restores the original label, clears
the inline background, re-enables the button and resets the form
(modelled as clearing the field values). -/
def contactSubmit (form : ContactForm) : Except JsErr SubmitOutcome :=
  match form.submitBtn with
  | none => Except.error JsErr.typeError
  | some btn =>
    let originalLabel := btn.innerHTML
    let pressed : SubmitBtn :=
      { innerHTML := "Sent! ✓",
        background := "linear-gradient(135deg, #10b981, #06b6d4)",
        disabled := true }
    let restored : SubmitBtn :=
      { innerHTML := originalLabel, background := "", disabled := false }
    Except.ok
      { defaultPrevented := true,
        immediate := { form with submitBtn := some pressed },
        delay := 2500,
        final := { submitBtn := some restored, fields := [] } }

/-! ### The whole `DOMContentLoaded` handler

Presence/absence of each queried element, and the result of running the
load-time code (lines 20-333).  Handler attachments on guarded,
present elements cannot fail, so the only load-time effects that can
fail are: the unconditional `addNavScrollClass()` call at line 46
(dereferences `navbar` with no existence check), the `JSON.parse` at
line 205 (throws on malformed `data-words`), and the `type()` call made
by the `TypeWriter` constructor at line 206 (throws when the parsed
word list is empty). -/

structure Dom where
  /-- Whether `querySelector('.navbar')` found an element. -/
  navbar : Bool
  /-- Whether `querySelector('.hamburger')` found an element. -/
  hamburger : Bool
  /-- Whether `querySelector('.nav-menu')` found an element. -/
  navMenu : Bool
  /-- Result of `getElementById('typed-text')`: `none` when absent; when present,
  the parse of its `data-words` attribute — `some none` for malformed
  JSON (the parse throws), `some (some ws)` when it parses to the word
  list `ws`. -/
  typedTarget : Option (Option (List JStr))
  /-- Whether `querySelector('.back-to-top')` found an element. -/
  backToTop : Bool
  /-- Result of `getElementById('contactForm')`: the form, when present. -/
  contactForm : Option ContactForm
  deriving DecidableEq

/-- The load-time execution of the script body, in source order.  The
guarded sections (mobile drawer, section observer, reveal observer,
stats observer, back-to-top, filter buttons, contact form) only attach
callbacks and cannot fail, so they contribute no effect here. -/
def loadScript (dom : Dom) : Except JsErr Unit :=
  if dom.navbar = false then Except.error JsErr.typeError
  else
    match dom.typedTarget with
    | none => Except.ok ()
    | some none => Except.error JsErr.syntaxError
    | some (some ws) =>
      match typeStep (typeWriterInit ws) with
      | none => Except.error JsErr.typeError
      | some _ => Except.ok ()

/-! ### Concrete inputs used by witnesses and counterexamples -/

/-- A fresh `TypeWriter` over the single word `"Hi"`. -/
def twHi : TWState := typeWriterInit [['H', 'i']]

/-- State of `twHi` after its first `type()` call. -/
def twHi1 : TWState := { twHi with text := ['H'] }

/-- A page with everything present and a well-formed, non-empty word
list, except that `.navbar` is missing. -/
def btnSend : SubmitBtn := { innerHTML := "Send", background := "", disabled := false }

/-- The submit button in its transient success state (lines 319-321). -/
def btnSent : SubmitBtn :=
  { innerHTML := "Sent! ✓",
    background := "linear-gradient(135deg, #10b981, #06b6d4)",
    disabled := true }

def domNoNavbar : Dom :=
  { navbar := false, hamburger := true, navMenu := true,
    typedTarget := some (some [['H', 'i']]),
    backToTop := true,
    contactForm := some { submitBtn := some btnSend, fields := [] } }

/-- A page with everything present and a well-formed, non-empty word
list. -/
def domOk : Dom :=
  { navbar := true, hamburger := true, navMenu := true,
    typedTarget := some (some [['H', 'i']]),
    backToTop := true,
    contactForm := some { submitBtn := some btnSend, fields := [] } }

/-- A filter UI with an "all" button and a "web" button, and one card
per category. -/
def ui0 : FilterUI :=
  { buttons := [{ filter := "all", active := true },
                { filter := "web", active := false }],
    cards := [{ category := "web", hidden := true },
              { category := "app", hidden := false }] }

/-- The "web" button of `ui0`. -/
def ui0web : Fin ui0.buttons.length := ⟨1, by decide⟩

/-- A concrete contact form with a submit button and one filled field. -/
def form0 : ContactForm :=
  { submitBtn := some btnSend, fields := ["hello"] }

/-! ## Helper lemmas -/

/-- A `take` of a list is one of its prefixes. -/
theorem isPre_take {α : Type} (l : List α) (n : ℕ) : l.take n <+: l :=
  ⟨l.drop n, List.take_append_drop n l⟩

/-- The method `TypeWriter.type` fails exactly on an empty word list: line 170
indexes `words[wordIndex % words.length]`, which is out of bounds for
every index when `words` is empty and in bounds otherwise. -/
theorem typeStep_eq_none_iff (s : TWState) : typeStep s = none ↔ s.words = [] := by
  constructor
  · intro h
    by_contra hne
    have hpos : 0 < s.words.length := List.length_pos.mpr hne
    have hlt : s.wordIndex % s.words.length < s.words.length := Nat.mod_lt _ hpos
    unfold typeStep at h
    rw [List.getElem?_eq_getElem hlt] at h
    exact Option.noConfusion h
  · intro h
    have hnone : s.words[s.wordIndex % s.words.length]? = none := by
      rw [h]; simp
    unfold typeStep
    rw [hnone]

/-- Case analysis on one `type()` call: what the step does when typing
(`isDeleting = false`) and when deleting (`isDeleting = true`). -/
theorem typeStepAux_cases (s : TWState) (w : JStr) :
    (s.isDeleting = false → typeStepAux s w =
      (if w.take (s.text.length + 1) = w
        then ({ s with text := w.take (s.text.length + 1), isDeleting := true }, s.waitTime)
        else ({ s with text := w.take (s.text.length + 1) }, 100))) ∧
    (s.isDeleting = true → typeStepAux s w =
      (if w.take (s.text.length - 1) = []
        then ({ s with text := w.take (s.text.length - 1), isDeleting := false, wordIndex := s.wordIndex + 1 }, 400)
        else ({ s with text := w.take (s.text.length - 1) }, 50))) := by
  constructor <;> intro hdel <;> simp [typeStepAux, hdel]

/-! ## Claims -/

/-- Claim C9: the typing effect's step function succeeds (produces a
next state and delay) if and only if the word list is non-empty; for an
empty word list the very first `type()` call already fails, since
`words[wordIndex % words.length]` selects no word and the subsequent
`substring` has no receiver. -/
theorem claim_C9 (s : TWState) : (∃ r, typeStep s = some r) ↔ s.words ≠ [] := by
  constructor
  · rintro ⟨r, hr⟩ h
    rw [(typeStep_eq_none_iff s).mpr h] at hr
    exact Option.noConfusion hr
  · intro h
    rcases ho : typeStep s with _ | r
    · exact absurd ((typeStep_eq_none_iff s).mp ho) h
    · exact ⟨r, rfl⟩

theorem claim_C9_witness : twHi.words ≠ [] :=
  (claim_C9 twHi).mp ⟨(twHi1, 100), by decide⟩

/-- Claim C6: after `addNavScrollClass` runs, the navbar carries the
`"scrolled"` class exactly when the scroll offset strictly exceeds
50 pixels: for offsets at most 50 the class is absent, for offsets
above 50 it is present. -/
theorem claim_C6 (y : ℚ) (cs : List String) :
    (y ≤ 50 → "scrolled" ∉ addNavScrollClass y cs) ∧
    (50 < y → "scrolled" ∈ addNavScrollClass y cs) := by
  constructor
  · intro hy
    unfold addNavScrollClass
    rw [if_neg (not_lt.mpr hy)]
    unfold classListRemove
    simp [List.mem_filter]
  · intro hy
    unfold addNavScrollClass
    rw [if_pos hy]
    unfold classListAdd
    split
    · assumption
    · simp

theorem claim_C6_witness : "scrolled" ∉ addNavScrollClass 50 ["navbar"] :=
  (claim_C6 50 ["navbar"]).1 le_rfl

/-- Claim C7: every submission of the contact form (whatever the field
contents) suppresses the default action, immediately swaps the submit
button's label and background and disables it, and schedules a single
2500 ms timeout after which the original label is restored, the inline
background is cleared, the button is re-enabled and the form fields are
cleared. -/
theorem claim_C7 (form : ContactForm) (btn : SubmitBtn)
    (h : form.submitBtn = some btn) :
    contactSubmit form = Except.ok
      { defaultPrevented := true,
        immediate := { form with submitBtn := some btnSent },
        delay := 2500,
        final := { submitBtn := some { innerHTML := btn.innerHTML, background := "", disabled := false },
                   fields := [] } } := by
  unfold contactSubmit
  rw [h]
  rfl

theorem claim_C7_witness :
    contactSubmit form0 = Except.ok
      { defaultPrevented := true,
        immediate := { form0 with submitBtn := some btnSent },
        delay := 2500,
        final := { submitBtn := some { innerHTML := "Send", background := "", disabled := false },
                   fields := [] } } :=
  claim_C7 form0 btnSend rfl

/-- Claim C3, counterexample: on a page whose `.navbar` element is
absent but whose typing-effect word list is present and well-formed,
the load-time script run throws a `TypeError` (line 46 calls
`addNavScrollClass()` which dereferences the null `navbar` without an
existence check).  So not every optional element is guarded, and a
malformed serialized word list is not the only failure path. -/
theorem claim_C3_counterexample :
    loadScript domNoNavbar = Except.error JsErr.typeError ∧
    domNoNavbar.navbar = false ∧
    domNoNavbar.typedTarget = some (some [['H', 'i']]) :=
  ⟨rfl, rfl, rfl⟩

/-- Claim C3, amended: every optional element except the navbar is
guarded by an existence check before use, but the navbar is
dereferenced unconditionally at load; the load-time run succeeds
exactly when the navbar exists, the serialized word list (when the
typed-text element exists) is well-formed, and the parsed word list is
non-empty.  Equivalently, the failure paths are a missing navbar, a
malformed word list, and an empty word list. -/
theorem claim_C3_amended (dom : Dom) :
    loadScript dom = Except.ok () ↔
      dom.navbar = true ∧ dom.typedTarget ≠ some none ∧
        dom.typedTarget ≠ some (some []) := by
  unfold loadScript
  cases hn : dom.navbar
  · simp
  · rcases ht : dom.typedTarget with _ | ⟨_ | ws⟩
    · simp
    · simp
    · rcases hts : typeStep (typeWriterInit ws) with _ | r
      · have hws : ws = [] := (typeStep_eq_none_iff (typeWriterInit ws)).mp hts
        subst hws
        simp [hts]
      · have hws : ws ≠ [] := by
          intro hh
          rw [(typeStep_eq_none_iff (typeWriterInit ws)).mpr hh] at hts
          exact Option.noConfusion hts
        simp [hts, hws]

theorem claim_C3_witness : loadScript domOk = Except.ok () :=
  (claim_C3_amended domOk).mpr (by decide)

/-- Claim C2: whenever a `type()` step succeeds, the visible text of
the resulting state is a prefix of the then-current target word
`words[wordIndex % words.length]`, the word list is unchanged, and the
word index advances by at most one (wrapping being performed by the
modulo in the lookup). -/
theorem claim_C2 (s s' : TWState) (d : ℕ) (h : typeStep s = some (s', d)) :
    s'.words = s.words ∧
    (s'.wordIndex = s.wordIndex ∨ s'.wordIndex = s.wordIndex + 1) ∧
    ∃ w, s'.words[s'.wordIndex % s'.words.length]? = some w ∧ s'.text <+: w := by
  rcases hw : s.words[s.wordIndex % s.words.length]? with _ | w0
  · unfold typeStep at h
    rw [hw] at h
    exact Option.noConfusion h
  have hstep : typeStep s = some (typeStepAux s w0) := by
    unfold typeStep
    rw [hw]
  rw [hstep, Option.some.injEq] at h
  have hlt : s.wordIndex % s.words.length < s.words.length := by
    by_contra hge
    rw [List.getElem?_eq_none (Nat.le_of_not_lt hge)] at hw
    exact Option.noConfusion hw
  have hpos : 0 < s.words.length := Nat.lt_of_le_of_lt (Nat.zero_le _) hlt
  cases hdel : s.isDeleting
  · rw [(typeStepAux_cases s w0).1 hdel] at h
    by_cases hc : w0.take (s.text.length + 1) = w0
    · rw [if_pos hc] at h
      have hs : s' = { s with text := w0.take (s.text.length + 1), isDeleting := true } :=
        (congrArg Prod.fst h).symm
      subst hs
      exact ⟨rfl, Or.inl rfl, w0, by simpa using hw, by simpa using isPre_take w0 (s.text.length + 1)⟩
    · rw [if_neg hc] at h
      have hs : s' = { s with text := w0.take (s.text.length + 1) } :=
        (congrArg Prod.fst h).symm
      subst hs
      exact ⟨rfl, Or.inl rfl, w0, by simpa using hw, by simpa using isPre_take w0 (s.text.length + 1)⟩
  · rw [(typeStepAux_cases s w0).2 hdel] at h
    by_cases hc : w0.take (s.text.length - 1) = []
    · rw [if_pos hc] at h
      have hs : s' = { s with text := w0.take (s.text.length - 1), isDeleting := false, wordIndex := s.wordIndex + 1 } :=
        (congrArg Prod.fst h).symm
      subst hs
      have hlt' : (s.wordIndex + 1) % s.words.length < s.words.length := Nat.mod_lt _ hpos
      refine ⟨rfl, Or.inr rfl, s.words[(s.wordIndex + 1) % s.words.length], ?_, ?_⟩
      · simp [List.getElem?_eq_getElem hlt']
      · simp [hc]
    · rw [if_neg hc] at h
      have hs : s' = { s with text := w0.take (s.text.length - 1) } :=
        (congrArg Prod.fst h).symm
      subst hs
      exact ⟨rfl, Or.inl rfl, w0, by simpa using hw, by simpa using isPre_take w0 (s.text.length - 1)⟩

theorem claim_C2_witness :
    twHi1.words = twHi.words ∧
    (twHi1.wordIndex = twHi.wordIndex ∨ twHi1.wordIndex = twHi.wordIndex + 1) ∧
    ∃ w, twHi1.words[twHi1.wordIndex % twHi1.words.length]? = some w ∧ twHi1.text <+: w :=
  claim_C2 twHi twHi1 100 (by decide)

/-- Claim C5: with a word successfully selected and the configured
`waitTime` of 2000 ms, one `type()` call realises the four-phase cycle:
while typing it extends the visible text to the next character of the
word and schedules the next step after 100 ms; on completing the word
it keeps the full word, flips to deleting and waits 2000 ms; while
deleting it shortens the text by one character and waits 50 ms; on
reaching the empty text it advances to the next word, flips back to
typing and waits 400 ms.  Moreover every step schedules a next step
(the step function always produces a successor), so the cycle never
terminates. -/
theorem claim_C5 (s : TWState) (w : JStr)
    (hw : s.words[s.wordIndex % s.words.length]? = some w)
    (hwait : s.waitTime = 2000) :
    (s.isDeleting = false → w.take (s.text.length + 1) ≠ w →
      typeStep s = some ({ s with text := w.take (s.text.length + 1) }, 100)) ∧
    (s.isDeleting = false → w.take (s.text.length + 1) = w →
      typeStep s = some ({ s with text := w.take (s.text.length + 1), isDeleting := true }, 2000)) ∧
    (s.isDeleting = true → w.take (s.text.length - 1) ≠ [] →
      typeStep s = some ({ s with text := w.take (s.text.length - 1) }, 50)) ∧
    (s.isDeleting = true → w.take (s.text.length - 1) = [] →
      typeStep s = some ({ s with text := w.take (s.text.length - 1), isDeleting := false, wordIndex := s.wordIndex + 1 }, 400)) ∧
    (typeStep s).isSome = true := by
  have hstep : typeStep s = some (typeStepAux s w) := by
    unfold typeStep
    rw [hw]
  refine ⟨?_, ?_, ?_, ?_, ?_⟩
  · intro hdel hne
    rw [hstep, (typeStepAux_cases s w).1 hdel, if_neg hne]
  · intro hdel heq
    rw [hstep, (typeStepAux_cases s w).1 hdel, if_pos heq, hwait]
  · intro hdel hne
    rw [hstep, (typeStepAux_cases s w).2 hdel, if_neg hne]
  · intro hdel heq
    rw [hstep, (typeStepAux_cases s w).2 hdel, if_pos heq]
  · rw [hstep]
    rfl

theorem claim_C5_witness :
    typeStep twHi = some ({ twHi with text := (['H', 'i'] : JStr).take (twHi.text.length + 1) }, 100) :=
  (claim_C5 twHi ['H', 'i'] (by decide) rfl).1 rfl (by decide)

/-- Monotonicity of `Math.round`. -/
theorem jsRound_mono {q r : ℚ} (h : q ≤ r) : jsRound q ≤ jsRound r :=
  Int.floor_mono (by linarith)

/-- The clamped tick value is monotone in the tick number. -/
theorem countUpValue_mono (t : ℕ) {k₁ k₂ : ℕ} (h : k₁ ≤ k₂) :
    countUpValue t k₁ ≤ countUpValue t k₂ := by
  unfold countUpValue
  refine min_le_min (jsRound_mono ?_) le_rfl
  have h' : (k₁ : ℚ) ≤ (k₂ : ℚ) := by exact_mod_cast h
  have h0 : 0 ≤ (t : ℚ) / 60 := by positivity
  exact mul_le_mul_of_nonneg_left h' h0

/-- The clamped tick value never exceeds the target. -/
theorem countUpValue_le (t k : ℕ) : countUpValue t k ≤ (t : ℤ) :=
  min_le_right _ _

/-- On tick 0 nothing has been added yet: the value is 0. -/
theorem countUpValue_zero (t : ℕ) : countUpValue t 0 = 0 := by
  unfold countUpValue jsRound
  have h0 : (t : ℚ) / 60 * (0 : ℕ) + 1/2 = 1/2 := by push_cast; ring
  rw [h0]
  have hf : ⌊(1 : ℚ)/2⌋ = 0 := by
    rw [Int.floor_eq_iff]
    norm_num
  rw [hf]
  exact min_eq_left (by positivity)

/-- On tick 60 the rounded value is already exactly the target. -/
theorem countUpValue_final (t : ℕ) : countUpValue t 60 = (t : ℤ) := by
  unfold countUpValue jsRound
  have h60 : (t : ℚ) / 60 * (60 : ℕ) = ((t : ℤ) : ℚ) := by
    push_cast
    field_simp
  rw [h60]
  have hf : ⌊((t : ℤ) : ℚ) + 1/2⌋ = (t : ℤ) := by
    rw [Int.floor_eq_iff]
    constructor <;> [linarith; linarith]
  rw [hf, min_self]

/-- A cleared interval never fires again. -/
theorem countUpTick_cleared {t : ℕ} {s : CountState} (h : s.cleared = true) :
    countUpTick t s = s := by
  unfold countUpTick
  rw [h]
  rfl

/-- Full description of the animation state after `k ≤ 60` ticks: the
step counter equals `k`, the interval is cleared exactly on tick 60,
and the displayed value is the clamped rounded value (the exact target
on the final tick). -/
theorem countUpRun_spec (t : ℕ) :
    ∀ k, k ≤ 60 →
      (countUpRun t k).currentStep = k ∧
      (countUpRun t k).cleared = decide (k = 60) ∧
      (countUpRun t k).display = if k = 60 then (t : ℤ) else countUpValue t k := by
  intro k
  induction k with
  | zero =>
    intro _
    refine ⟨rfl, rfl, ?_⟩
    rw [if_neg (by decide)]
    exact (countUpValue_zero t).symm
  | succ k ih =>
    intro hk
    have hk' : k ≤ 60 := Nat.le_of_succ_le hk
    have hklt : k < 60 := Nat.lt_of_succ_le hk
    obtain ⟨ih1, ih2, -⟩ := ih hk'
    have hcl : (countUpRun t k).cleared = false := by
      rw [ih2]
      simp [Nat.ne_of_lt hklt]
    have hiter : countUpRun t (k + 1) = countUpTick t (countUpRun t k) :=
      Function.iterate_succ_apply' _ _ _
    rw [hiter]
    unfold countUpTick
    rw [hcl, ih1]
    simp only [Bool.false_eq_true, if_false]
    by_cases h60 : 60 ≤ k + 1
    · have he : k + 1 = 60 := Nat.le_antisymm hk h60
      rw [if_pos h60, he]
      exact ⟨rfl, by simp, by simp⟩
    · have hne : ¬ (k + 1 = 60) := fun hh => h60 (le_of_eq hh.symm)
      rw [if_neg h60]
      exact ⟨rfl, by simp [hne], by simp [hne]⟩

/-- Claim C1: over the 60 steps of the count-up, the displayed value is
monotonically non-decreasing, never exceeds the target, and the value
displayed at completion (after the 60th tick) is exactly the target —
for every non-negative integer target, including 0. -/
theorem claim_C1 (t k₁ k₂ : ℕ) (h1 : k₁ ≤ k₂) (h2 : k₂ ≤ 60) :
    (countUpRun t k₁).display ≤ (countUpRun t k₂).display ∧
    (countUpRun t k₂).display ≤ (t : ℤ) ∧
    (countUpRun t 60).display = (t : ℤ) := by
  obtain ⟨-, -, hd1⟩ := countUpRun_spec t k₁ (le_trans h1 h2)
  obtain ⟨-, -, hd2⟩ := countUpRun_spec t k₂ h2
  obtain ⟨-, -, hd60⟩ := countUpRun_spec t 60 le_rfl
  have h60 : (countUpRun t 60).display = (t : ℤ) := by
    rw [hd60]
    simp
  have hle : (countUpRun t k₂).display ≤ (t : ℤ) := by
    rw [hd2]
    by_cases e2 : k₂ = 60
    · rw [if_pos e2]
    · rw [if_neg e2]
      exact countUpValue_le t k₂
  refine ⟨?_, hle, h60⟩
  rw [hd1, hd2]
  by_cases e2 : k₂ = 60
  · rw [if_pos e2]
    by_cases e1 : k₁ = 60
    · rw [if_pos e1]
    · rw [if_neg e1]
      exact countUpValue_le t k₁
  · have e1 : ¬ k₁ = 60 := by
      intro hh
      exact e2 (Nat.le_antisymm h2 (hh ▸ h1))
    rw [if_neg e2, if_neg e1]
    exact countUpValue_mono t h1

theorem claim_C1_witness : (countUpRun 7 3).display ≤ (countUpRun 7 60).display :=
  (claim_C1 7 3 60 (by decide) (by decide)).1

/-- Claim C10: the count-up always terminates — the interval fires
exactly 60 times: it is not yet cleared before the 60th tick, it is
cleared on the 60th tick, and every later tick leaves the state (in
particular the displayed value) unchanged. -/
theorem claim_C10 (t n : ℕ) (h : 60 ≤ n) :
    (countUpRun t 60).cleared = true ∧
    (∀ m, m < 60 → (countUpRun t m).cleared = false) ∧
    countUpRun t n = countUpRun t 60 := by
  have h60 : (countUpRun t 60).cleared = true := by
    obtain ⟨-, hc, -⟩ := countUpRun_spec t 60 le_rfl
    rw [hc]
    simp
  refine ⟨h60, ?_, ?_⟩
  · intro m hm
    obtain ⟨-, hc, -⟩ := countUpRun_spec t m (le_of_lt hm)
    rw [hc]
    simp [Nat.ne_of_lt hm]
  · induction n, h using Nat.le_induction with
    | base => rfl
    | succ n hn ih =>
      have hiter : countUpRun t (n + 1) = countUpTick t (countUpRun t n) :=
        Function.iterate_succ_apply' _ _ _
      rw [hiter, ih, countUpTick_cleared h60]

theorem claim_C10_witness : countUpRun 7 61 = countUpRun 7 60 :=
  (claim_C10 7 61 (by decide)).2.2

/-- Claim C4: after a click on filter button `i`, that button is the
unique active one; with filter value `"all"` every card is visible
(not hidden), and with any other value exactly the cards whose
`data-category` equals the value are visible. -/
theorem claim_C4 (ui : FilterUI) (i : Fin ui.buttons.length) :
    ((clickFilter ui i).buttons.length = ui.buttons.length) ∧
    (∀ j (hj : j < (clickFilter ui i).buttons.length),
      ((clickFilter ui i).buttons.get ⟨j, hj⟩).active = true ↔ j = (i : ℕ)) ∧
    ((ui.buttons.get i).filter = "all" →
      ∀ c ∈ (clickFilter ui i).cards, c.hidden = false) ∧
    ((ui.buttons.get i).filter ≠ "all" →
      ∀ c ∈ (clickFilter ui i).cards, (c.hidden = false ↔ c.category = (ui.buttons.get i).filter)) := by
  refine ⟨by simp [clickFilter], ?_, ?_, ?_⟩
  · intro j hj
    unfold clickFilter
    rw [List.get_eq_getElem, List.getElem_set]
    split
    · next h => simp [h]
    · next h =>
      rw [List.getElem_map]
      simp only [Bool.false_eq_true, false_iff]
      exact fun hh => h hh.symm
  · intro hall c hc
    rw [List.get_eq_getElem] at hall
    unfold clickFilter at hc
    simp only [List.mem_map] at hc
    obtain ⟨a, -, rfl⟩ := hc
    simp [hall]
  · intro hne c hc
    rw [List.get_eq_getElem] at hne ⊢
    unfold clickFilter at hc
    simp only [List.mem_map] at hc
    obtain ⟨a, -, rfl⟩ := hc
    simp [beq_eq_false_iff_ne.mpr hne]

theorem claim_C4_witness :
    ({ category := "web", hidden := false } : ProjectCard).hidden = false ↔
      ({ category := "web", hidden := false } : ProjectCard).category = (ui0.buttons.get ui0web).filter :=
  (claim_C4 ui0 ui0web).2.2.2 (by decide) { category := "web", hidden := false } (by decide)

/-- The `revealed` class survives the processing of a single entry. -/
theorem revealed_mono_entry (st : RevealState) (e : ℕ × Bool) {x : ℕ}
    (h : x ∈ st.revealed) : x ∈ (revealEntryStep st e).revealed := by
  unfold revealEntryStep
  by_cases h2 : e.2 = false
  · rw [if_pos h2]
    exact h
  · rw [if_neg h2]
    dsimp only
    by_cases h1 : e.1 ∈ st.revealed
    · rw [if_pos h1]
      exact h
    · rw [if_neg h1]
      exact List.mem_append_left _ h

/-- The `revealed` class survives one whole callback invocation. -/
theorem revealed_mono_callback (entries : List (ℕ × Bool)) :
    ∀ st : RevealState, ∀ {x : ℕ}, x ∈ st.revealed →
      x ∈ (revealCallback st entries).revealed := by
  induction entries with
  | nil => intro st x h; exact h
  | cons e es ih => intro st x h; exact ih _ (revealed_mono_entry st e h)

/-- The `revealed` class survives any single page event. -/
theorem revealed_mono_step (st : RevealState) (e : RevealEvent) {x : ℕ}
    (h : x ∈ st.revealed) : x ∈ (revealStep st e).revealed := by
  cases e
  · exact h
  · exact revealed_mono_callback _ st h

/-- Processing an entry never adds elements to the observed set. -/
theorem observed_subset_entry (st : RevealState) (e : ℕ × Bool) :
    (revealEntryStep st e).observed ⊆ st.observed := by
  unfold revealEntryStep
  by_cases h2 : e.2 = false
  · rw [if_pos h2]
    exact fun y hy => hy
  · rw [if_neg h2]
    dsimp only
    intro y hy
    exact (List.mem_filter.mp hy).1

/-- A callback invocation never adds elements to the observed set. -/
theorem observed_subset_callback (entries : List (ℕ × Bool)) :
    ∀ st : RevealState, (revealCallback st entries).observed ⊆ st.observed := by
  induction entries with
  | nil => intro st; exact fun y hy => hy
  | cons e es ih => intro st; exact (ih _).trans (observed_subset_entry st e)

/-- A page event never adds elements to the observed set. -/
theorem observed_subset_step (st : RevealState) (e : RevealEvent) :
    (revealStep st e).observed ⊆ st.observed := by
  cases e
  · exact fun y hy => hy
  · exact observed_subset_callback _ st

/-- After a callback batch containing an intersecting entry for `x`,
the element `x` is no longer observed. -/
theorem not_observed_callback {x : ℕ} (entries : List (ℕ × Bool)) :
    ∀ st : RevealState, (x, true) ∈ entries →
      x ∉ (revealCallback st entries).observed := by
  induction entries with
  | nil => intro st h; exact absurd h (List.not_mem_nil _)
  | cons e es ih =>
    intro st h
    rcases List.mem_cons.mp h with he | hes
    · intro hx
      have hx' := observed_subset_callback es (revealEntryStep st e) hx
      rw [← he] at hx'
      unfold revealEntryStep at hx'
      simp [List.mem_filter] at hx'
    · exact ih _ hes

/-- Once `x` is revealed, no later event sequence can flip it again. -/
theorem transitionCount_eq_zero {x : ℕ} (evs : List RevealEvent) :
    ∀ st : RevealState, x ∈ st.revealed → transitionCount x st evs = 0 := by
  induction evs with
  | nil => intro st _; rfl
  | cons e es ih =>
    intro st h
    unfold transitionCount
    rw [if_neg (fun hc => hc.1 h), ih _ (revealed_mono_step st e h)]

/-- Any event sequence reveals a given element at most once. -/
theorem transitionCount_le_one {x : ℕ} (evs : List RevealEvent) :
    ∀ st : RevealState, transitionCount x st evs ≤ 1 := by
  induction evs with
  | nil => intro st; exact Nat.zero_le 1
  | cons e es ih =>
    intro st
    unfold transitionCount
    by_cases hc : x ∉ st.revealed ∧ x ∈ (revealStep st e).revealed
    · rw [if_pos hc, transitionCount_eq_zero es _ hc.2]
    · rw [if_neg hc]
      simpa using ih (revealStep st e)

/-- Claim C8: the reveal transition is one-shot and irreversible.  An
element that carries the `revealed` class still carries it after any
sequence of scroll and intersection events; the unrevealed-to-revealed
transition happens at most once per element over any event sequence; as
soon as a callback batch reports the element intersecting, the element
is unobserved; and the observed set never grows back. -/
theorem claim_C8 (x : ℕ) (st : RevealState) (evs : List RevealEvent) :
    (x ∈ st.revealed → x ∈ (revealRun st evs).revealed) ∧
    transitionCount x st evs ≤ 1 ∧
    (∀ entries, (x, true) ∈ entries → x ∉ (revealCallback st entries).observed) ∧
    (revealRun st evs).observed ⊆ st.observed := by
  refine ⟨?_, transitionCount_le_one evs st,
    fun entries h => not_observed_callback entries st h, ?_⟩
  · intro h
    induction evs generalizing st with
    | nil => exact h
    | cons e es ih => exact ih (revealStep st e) (revealed_mono_step st e h)
  · induction evs generalizing st with
    | nil => exact fun y hy => hy
    | cons e es ih => exact (ih (revealStep st e)).trans (observed_subset_step st e)

theorem claim_C8_witness :
    transitionCount 3 { revealed := [], observed := [3] }
      [RevealEvent.intersection [(3, true)], RevealEvent.intersection [(3, true)]] ≤ 1 :=
  (claim_C8 3 { revealed := [], observed := [3] }
    [RevealEvent.intersection [(3, true)], RevealEvent.intersection [(3, true)]]).2.1
